import Mathlib

/-!
Verification of the source-lookup cog of the sir-robin bot
(file src/bot/exts/source.py, class BotSource).

The Python code is embedded shallowly.  Runtime introspection data
(inspect.unwrap, code.co_filename, inspect.getsourcefile,
inspect.getsourcelines) is made explicit on the modelled objects:
a fallible introspection call is an Option field whose none value stands
for the exception the call would raise (TypeError for getsourcefile on a
dynamically created type, OSError for getsourcelines on an object with no
retrievable source).  Fallible Python code is translated to Except:
commands.BadArgument, ValueError (from Path.relative_to) and IndexError
(from list indexing) become the constructors of PyError.

Per the data model of the specification, a converted source item is
either a Command, a Cog, or the built-in help-command sentinel; plain
strings do not occur, so the `isinstance(source_item, str)` test of
get_source_link is always false here and the code specialises
accordingly.
-/

namespace SirRobin

/-- Equality of Except values is decidable when both sides are. -/
instance {ε α : Type} [DecidableEq ε] [DecidableEq α] : DecidableEq (Except ε α) := fun x y =>
  match x, y with
  | .ok a, .ok b =>
    if h : a = b then .isTrue (by rw [h])
    else .isFalse (by intro hc; injection hc; contradiction)
  | .ok _, .error _ => .isFalse (by intro hc; injection hc)
  | .error _, .ok _ => .isFalse (by intro hc; injection hc)
  | .error e, .error f =>
    if h : e = f then .isTrue (by rw [h])
    else .isFalse (by intro hc; injection hc; contradiction)

/-- Exceptions that the modelled code can raise. -/
inductive PyError where
  | badArgument (msg : String)
  | valueError
  | indexError
deriving DecidableEq, Repr

/-- Message used by BotSource.get_source_link for both BadArgument raises. -/
def dynMsg : String := "Cannot get source for a dynamically-created object."

/-- Introspection view of a plain Python function: the co_filename of its
code object, and the result of inspect.getsourcelines on it (none models
the OSError raised when no source is retrievable, e.g. for a function
created by an internal eval). -/
structure FunctionObj where
  co_filename : String
  getsourcelines : Option (List String × Nat)
deriving DecidableEq, Repr

/-- A command callback, possibly wrapped by decorator layers that
functools.wraps chains together; inspect.unwrap walks to the base. -/
inductive Callback where
  | base (f : FunctionObj)
  | wrapped (inner : Callback)
deriving DecidableEq, Repr

/-- inspect.unwrap: follow the wrapper chain to the original function. -/
def Callback.unwrap : Callback → FunctionObj
  | .base f => f
  | .wrapped c => c.unwrap

/-- Introspection view of a Python class (the type of a cog):
inspect.getsourcefile (none models its TypeError on a dynamically created
or built-in type) and inspect.getsourcelines (none models OSError). -/
structure TypeObj where
  getsourcefile : Option String
  getsourcelines : Option (List String × Nat)
deriving DecidableEq, Repr

/-- A discord.py command as seen by the cog: qualified name, short help
text, and its callback. -/
structure Command where
  qualified_name : String
  short_doc : String
  callback : Callback
deriving DecidableEq, Repr

/-- A discord.py cog as seen by the code: qualified name, description
docstring, and its defining type (the value of `type(source_item)`). -/
structure Cog where
  qualified_name : String
  description : String
  cls : TypeObj
deriving DecidableEq, Repr

/-- A resolvable source item: the SourceType cases that reach
get_source_link (the help-command sentinel is short-circuited earlier by
source_command and never reaches it). -/
inductive SourceItem where
  | command (c : Command)
  | cog (g : Cog)
deriving DecidableEq, Repr

/-- Result of the SourceConverter as consumed by source_command: either
the built-in help-command sentinel (tagged with the introspection data of
its defining type, which the code never consults) or a Command/Cog. -/
inductive ConverterResult where
  | helpSentinel (impl : TypeObj)
  | item (x : SourceItem)
deriving DecidableEq, Repr

/-! ### Python string and path semantics -/

/-- str.split on a single separator character, list-of-chars level:
Python `"".split(c) == ['']`, `"a/b".split('/') == ['a','b']`. -/
def splitListOn (c : Char) : List Char → List (List Char)
  | [] => [[]]
  | x :: xs =>
    let r := splitListOn c xs
    if x = c then [] :: r
    else
      match r with
      | [] => [[x]]
      | y :: ys => (x :: y) :: ys

/-- str.split on a single separator character. -/
def splitOnChar (c : Char) (s : String) : List String :=
  (splitListOn c s.toList).map (fun l => String.mk l)

/-- Python str.splitlines restricted to the newline character: pieces
between newlines, with no trailing empty piece; the empty string yields
the empty list (which is what makes `""`.splitlines()[0] raise
IndexError). -/
def splitlines (s : String) : List String :=
  let ps := splitOnChar (Char.ofNat 10) s
  match ps.getLast? with
  | some "" => ps.dropLast
  | _ => ps

/-- Path components under a host separator, empty components dropped
(pathlib collapses repeated separators and the root into the anchor). -/
def pathParts (sep : Char) (p : String) : List String :=
  (splitOnChar sep p).filter (fun x => x != "")

/-- Whether a path is anchored at the filesystem root. -/
def isAbsolute (sep : Char) (p : String) : Bool :=
  match p.toList with
  | [] => false
  | x :: _ => x == sep

/-- pathlib Path.relative_to: the components of p relative to base, or
none for the ValueError raised when base is not a prefix of p. -/
def relative_to (sep : Char) (p : String) (base : String) : Option (List String) :=
  let pp := pathParts sep p
  let bp := pathParts sep base
  if isAbsolute sep p == isAbsolute sep base && bp.isPrefixOf pp then
    some (pp.drop bp.length)
  else
    none

/-- Join with forward slashes. -/
def joinSlash : List String → String
  | [] => ""
  | [x] => x
  | x :: xs => x ++ "/" ++ joinSlash xs

/-- pathlib PurePath.as_posix on a relative component list: always
forward slashes, whatever the host separator was; the empty relative
path prints as a dot. -/
def as_posix (parts : List String) : String :=
  match parts with
  | [] => "."
  | _ => joinSlash parts

/-- Python `x or None` on an optional int: 0 is falsy and becomes None. -/
def orNone (x : Option Nat) : Option Nat :=
  match x with
  | some 0 => none
  | y => y

/-! ### The cog itself -/

/-- BotSource.get_source_link: build the GitHub link of a source item and
return the link, the file location and the first line number.  Raises
BadArgument (as Except.error) for dynamically created objects, and
ValueError if the defining file does not lie under the current working
directory.  Parameters: the host path separator, the configured
Client.github_bot_repo and the current working directory Path.cwd(). -/
def get_source_link (sep : Char) (github_bot_repo : String) (cwd : String)
    (source_item : SourceItem) : Except PyError (String × String × Option Nat) :=
  let info : Except PyError (Option (List String × Nat) × String) :=
    match source_item with
    | .command c =>
      .ok ((c.callback.unwrap).getsourcelines, (c.callback.unwrap).co_filename)
    | .cog g =>
      match g.cls.getsourcefile with
      | some filename => .ok (g.cls.getsourcelines, filename)
      | none => .error (.badArgument dynMsg)
  match info with
  | .error e => .error e
  | .ok (srcLines, filename) =>
    match srcLines with
    | none => .error (.badArgument dynMsg)
    | some (lines, first_line_no) =>
      match relative_to sep filename cwd with
      | none => .error .valueError
      | some parts =>
        let file_location := as_posix parts
        let last_line_no := first_line_no + lines.length - 1
        let lines_extension :=
          "#L" ++ toString first_line_no ++ "-L" ++ toString last_line_no
        let url := github_bot_repo ++ "/blob/main/" ++ file_location ++ lines_extension
        .ok (url, file_location, orNone (some first_line_no))

/-- A discord.py Embed as the code uses it: title, description, fields,
thumbnail and footer. -/
structure Embed where
  title : Option String := none
  description : Option String := none
  fields : List (String × String) := []
  thumbnail : Option String := none
  footer : Option String := none
deriving DecidableEq, Repr

/-- Embed.add_field (name and value only, as the code uses it). -/
def Embed.add_field (e : Embed) (name value : String) : Embed :=
  { e with fields := e.fields ++ [(name, value)] }

/-- Embed.set_thumbnail. -/
def Embed.set_thumbnail (e : Embed) (url : String) : Embed :=
  { e with thumbnail := some url }

/-- Embed.set_footer. -/
def Embed.set_footer (e : Embed) (text : String) : Embed :=
  { e with footer := some text }

/-- BotSource.build_embed: build the embed of a source object.  Calls
get_source_link first, then derives title and description; indexing the
first line of a cog description that splits to no lines raises
IndexError. -/
def build_embed (sep : Char) (github_bot_repo : String) (cwd : String)
    (source_object : SourceItem) : Except PyError Embed :=
  match get_source_link sep github_bot_repo cwd source_object with
  | .error e => .error e
  | .ok (url, location, first_line) =>
    let td : Except PyError (String × String) :=
      match source_object with
      | .command c => .ok ("Command: " ++ c.qualified_name, c.short_doc)
      | .cog g =>
        match splitlines g.description with
        | [] => .error .indexError
        | d :: _ => .ok ("Cog: " ++ g.qualified_name, d)
    match td with
    | .error e => .error e
    | .ok (title, description) =>
      let embed : Embed := { title := some title, description := some description }
      let embed := embed.add_field "Source Code" ("[Go to GitHub](" ++ url ++ ")")
      let line_text :=
        match first_line with
        | some n => if n = 0 then "" else ":" ++ toString n
        | none => ""
      .ok (embed.set_footer (location ++ line_text))

/-- BotSource.source_command: the embed the command sends.  With no item
it links the repository root; the built-in help-command sentinel is
short-circuited to a fixed embed; otherwise build_embed runs. -/
def source_command (sep : Char) (github_bot_repo : String) (cwd : String)
    (source_item : Option ConverterResult) : Except PyError Embed :=
  match source_item with
  | none =>
    let embed : Embed := { title := some "Sir Robin\x27s GitHub Repository" }
    let embed := embed.add_field "Repository" ("[Go to GitHub](" ++ github_bot_repo ++ ")")
    let embed := embed.set_thumbnail "https://avatars1.githubusercontent.com/u/9919"
    .ok embed
  | some (.helpSentinel _) =>
    let embed : Embed :=
      { title := some "Help Command"
        description := some "We use Discord.py\x27s default help command." }
    let embed := embed.add_field "Repository" ("[Go to GitHub](" ++ github_bot_repo ++ ")")
    let embed := embed.set_thumbnail "https://avatars1.githubusercontent.com/u/9919"
    .ok embed
  | some (.item x) => build_embed sep github_bot_repo cwd x

/-- The source items whose introspection metadata is missing in the sense
of claim C1: a Command whose unwrapped callback has no retrievable source
lines, or a Cog whose defining type has no source file. -/
def lacks_source_metadata : SourceItem → Prop
  | .command c => (c.callback.unwrap).getsourcelines = none
  | .cog g => g.cls.getsourcefile = none

/-- The defining file of a source item as the code reads it. -/
def source_filename : SourceItem → Option String
  | .command c => some (c.callback.unwrap).co_filename
  | .cog g => g.cls.getsourcefile

/-- The getsourcelines data of a source item as the code reads it. -/
def source_lines_of : SourceItem → Option (List String × Nat)
  | .command c => (c.callback.unwrap).getsourcelines
  | .cog g => g.cls.getsourcelines

/-- The `:{line}` footer suffix: present exactly for a known line. -/
def line_suffix : Option Nat → String
  | some n => ":" ++ toString n
  | none => ""

/-- Process-global state that get_source_link reads (the working
directory, via Path.cwd); it owns no other state. -/
structure ProgramState where
  cwd : String
deriving DecidableEq, Repr

/-- get_source_link in explicit state-passing form: the Python body only
reads introspection data and the working directory and performs no
assignment, so the state threads through unchanged. -/
def get_source_link_exec (sep : Char) (github_bot_repo : String)
    (st : ProgramState) (source_item : SourceItem) :
    Except PyError (String × String × Option Nat) × ProgramState :=
  (get_source_link sep github_bot_repo st.cwd source_item, st)

/-! ### Helper lemmas -/

/-- Inversion of a successful get_source_link: the defining file, line
data, relative path, location, first-line value and url shape. -/
theorem get_source_link_ok_inv (sep : Char) (repo cwd : String) (item : SourceItem)
    (url loc : String) (fl : Option Nat)
    (hok : get_source_link sep repo cwd item = .ok (url, loc, fl)) :
    ∃ fn lines n parts,
      source_filename item = some fn ∧
      source_lines_of item = some (lines, n) ∧
      relative_to sep fn cwd = some parts ∧
      loc = as_posix parts ∧
      fl = orNone (some n) ∧
      url = repo ++ "/blob/main/" ++ loc ++
        ("#L" ++ toString n ++ "-L" ++ toString (n + lines.length - 1)) := by
  cases item with
  | command c =>
    rcases hsl : (c.callback.unwrap).getsourcelines with _ | ⟨lines, n⟩
    · simp [get_source_link, hsl] at hok
    · rcases hrel : relative_to sep (c.callback.unwrap).co_filename cwd with _ | parts
      · simp [get_source_link, hsl, hrel] at hok
      · simp [get_source_link, hsl, hrel] at hok
        obtain ⟨h1, h2, h3⟩ := hok
        subst h2
        exact ⟨(c.callback.unwrap).co_filename, lines, n, parts, rfl, hsl, hrel, rfl,
          h3.symm, h1.symm⟩
  | cog g =>
    rcases hfile : g.cls.getsourcefile with _ | fn
    · simp [get_source_link, hfile] at hok
    · rcases hsl : g.cls.getsourcelines with _ | ⟨lines, n⟩
      · simp [get_source_link, hfile, hsl] at hok
      · rcases hrel : relative_to sep fn cwd with _ | parts
        · simp [get_source_link, hfile, hsl, hrel] at hok
        · simp [get_source_link, hfile, hsl, hrel] at hok
          obtain ⟨h1, h2, h3⟩ := hok
          subst h2
          exact ⟨fn, lines, n, parts, hfile, hsl, hrel, rfl, h3.symm, h1.symm⟩

/-- The footer line suffix is empty exactly for an unknown line. -/
theorem line_suffix_empty_iff (x : Option Nat) : line_suffix x = "" ↔ x = none := by
  cases x with
  | none => simp [line_suffix]
  | some n =>
    simp [line_suffix]
    intro h
    have hlen := congrArg String.length h
    simp [String.length_append] at hlen
    exact (by decide : (":".length = 0) → False) hlen.1

/-! ### Concrete fixtures used by the witnesses -/

/-- A command created dynamically (internal eval): no retrievable source
lines on its callback. -/
def dynCommandW : SourceItem :=
  .command
    { qualified_name := "internal eval"
      short_doc := ""
      callback := .base { co_filename := "<string>", getsourcelines := none } }

/-- A statically defined, decorator-wrapped command whose body spans
lines 19 to 21 of bot/exts/source.py. -/
def staticCommandW : Command :=
  { qualified_name := "source"
    short_doc := "Display information."
    callback := .wrapped (.base
      { co_filename := "/app/bot/exts/source.py"
        getsourcelines := some (["a", "b", "c"], 19) }) }

/-- A statically defined cog with a two-line description. -/
def staticCogW : Cog :=
  { qualified_name := "BotSource"
    description := "First line.\nSecond line."
    cls :=
      { getsourcefile := some "/app/bot/exts/source.py"
        getsourcelines := some (["x", "y"], 13) } }

/-- The embed build_embed produces for staticCogW with repository R and
working directory /app on a slash host. -/
def embedCogW : Embed :=
  { title := some "Cog: BotSource"
    description := some "First line."
    fields := [("Source Code", "[Go to GitHub](R/blob/main/bot/exts/source.py#L13-L14)")]
    thumbnail := none
    footer := some "bot/exts/source.py:13" }

/-- A resolvable cog whose description is the empty string. -/
def emptyDescCogW : Cog :=
  { qualified_name := "Empty"
    description := ""
    cls :=
      { getsourcefile := some "/app/bot/exts/empty.py"
        getsourcelines := some (["x"], 5) } }

/-- A command whose defining file lies outside the working directory. -/
def outsideCommandW : Command :=
  { qualified_name := "elsewhere"
    short_doc := "d"
    callback := .base
      { co_filename := "/usr/lib/python/dep.py"
        getsourcelines := some (["a"], 3) } }

/-! ### The claims -/

/-- C1: for every source item that lacks source metadata (a Command whose
unwrapped callback has no retrievable source lines, or a Cog whose
defining type has no source file), get_source_link fails with exactly the
BadArgument rejection carrying the dynamically-created-object message:
no other exception, no link. -/
theorem getSourceLink_dynamic_badArgument (sep : Char) (repo cwd : String)
    (item : SourceItem) (h : lacks_source_metadata item) :
    get_source_link sep repo cwd item = .error (.badArgument dynMsg) := by
  cases item with
  | command c =>
    have h' : (c.callback.unwrap).getsourcelines = none := h
    simp [get_source_link, h']
  | cog g =>
    have h' : g.cls.getsourcefile = none := h
    simp [get_source_link, h']

/-- Witness for C1: a dynamically created command is rejected. -/
theorem getSourceLink_dynamic_badArgument_witness :
    lacks_source_metadata dynCommandW ∧
    get_source_link '/' "R" "/app" dynCommandW = .error (.badArgument dynMsg) :=
  ⟨rfl, getSourceLink_dynamic_badArgument '/' "R" "/app" dynCommandW rfl⟩

/-- C4: invoked with no source item, the command produces the embed whose
only link is exactly the configured repository base URL, with no
line-range suffix and no source location (no footer). -/
theorem sourceCommand_no_item_root (sep : Char) (repo cwd : String) :
    source_command sep repo cwd none =
      .ok
        { title := some "Sir Robin\x27s GitHub Repository"
          description := none
          fields := [("Repository", "[Go to GitHub](" ++ repo ++ ")")]
          thumbnail := some "https://avatars1.githubusercontent.com/u/9919"
          footer := none } := rfl

/-- C5: invoked with the built-in help-command sentinel, the command
returns the fixed embed pointing at the repository root, independently of
the introspection data of the sentinel implementation. -/
theorem sourceCommand_help_sentinel_fixed (sep : Char) (repo cwd : String)
    (impl : TypeObj) :
    source_command sep repo cwd (some (.helpSentinel impl)) =
      .ok
        { title := some "Help Command"
          description := some "We use Discord.py\x27s default help command."
          fields := [("Repository", "[Go to GitHub](" ++ repo ++ ")")]
          thumbnail := some "https://avatars1.githubusercontent.com/u/9919"
          footer := none } ∧
    ∀ impl2 : TypeObj,
      source_command sep repo cwd (some (.helpSentinel impl)) =
        source_command sep repo cwd (some (.helpSentinel impl2)) :=
  ⟨rfl, fun _ => rfl⟩

/-- C8: get_source_link is pure and deterministic: in state-passing form
it leaves the program state unchanged, and a second invocation under the
same introspection data and working directory returns the same result. -/
theorem getSourceLink_pure (sep : Char) (repo : String) (st : ProgramState)
    (item : SourceItem) :
    (get_source_link_exec sep repo st item).2 = st ∧
    (get_source_link_exec sep repo (get_source_link_exec sep repo st item).2 item).1 =
      (get_source_link_exec sep repo st item).1 :=
  ⟨rfl, rfl⟩

/-- C9: a cog whose description is the empty string and whose source is
otherwise resolvable makes build_embed fail with IndexError (the
description split yields no lines to index), not with the BadArgument
rejection and not with an embed. -/
theorem buildEmbed_empty_description_indexError (sep : Char) (repo cwd : String)
    (g : Cog) (t : String × String × Option Nat)
    (hdesc : g.description = "")
    (hok : get_source_link sep repo cwd (.cog g) = .ok t) :
    build_embed sep repo cwd (.cog g) = .error .indexError := by
  have hsplit : splitlines g.description = [] := by rw [hdesc]; rfl
  rcases t with ⟨url, loc, fl⟩
  simp [build_embed, hok, hsplit]

/-- Witness for C9: the empty-description cog hits IndexError. -/
theorem buildEmbed_empty_description_indexError_witness :
    emptyDescCogW.description = "" ∧
    get_source_link '/' "R" "/app" (.cog emptyDescCogW) =
      .ok ("R/blob/main/bot/exts/empty.py#L5-L5", "bot/exts/empty.py", some 5) ∧
    build_embed '/' "R" "/app" (.cog emptyDescCogW) = .error .indexError :=
  ⟨rfl, by decide,
    buildEmbed_empty_description_indexError '/' "R" "/app" emptyDescCogW
      ("R/blob/main/bot/exts/empty.py#L5-L5", "bot/exts/empty.py", some 5)
      rfl (by decide)⟩

/-- C10: for a Command or Cog whose source lines are retrievable but
whose defining file is not under the current working directory,
get_source_link fails with ValueError (from Path.relative_to), not with
the BadArgument rejection and not with a link. -/
theorem getSourceLink_outside_cwd_valueError (sep : Char) (repo cwd : String)
    (item : SourceItem) (fn : String) (ls : List String × Nat)
    (hfn : source_filename item = some fn)
    (hls : source_lines_of item = some ls)
    (hrel : relative_to sep fn cwd = none) :
    get_source_link sep repo cwd item = .error .valueError := by
  rcases ls with ⟨lines, n⟩
  cases item with
  | command c =>
    have h1 : (c.callback.unwrap).co_filename = fn := by
      simpa [source_filename] using hfn
    have h2 : (c.callback.unwrap).getsourcelines = some (lines, n) := hls
    simp [get_source_link, h2, h1, hrel]
  | cog g =>
    have h1 : g.cls.getsourcefile = some fn := hfn
    have h2 : g.cls.getsourcelines = some (lines, n) := hls
    simp [get_source_link, h1, h2, hrel]

/-- Witness for C10: a command defined under /usr/lib while the working
directory is /app raises ValueError. -/
theorem getSourceLink_outside_cwd_valueError_witness :
    source_filename (.command outsideCommandW) = some "/usr/lib/python/dep.py" ∧
    source_lines_of (.command outsideCommandW) = some (["a"], 3) ∧
    relative_to '/' "/usr/lib/python/dep.py" "/app" = none ∧
    get_source_link '/' "R" "/app" (.command outsideCommandW) = .error .valueError :=
  ⟨rfl, rfl, by decide,
    getSourceLink_outside_cwd_valueError '/' "R" "/app" (.command outsideCommandW)
      "/usr/lib/python/dep.py" (["a"], 3) rfl rfl (by decide)⟩

/-- C2: for a statically defined command (retrievable source lines,
nonempty body) that get_source_link resolves, the URL carries the
line-range suffix #Ln-Lm with n the first source line of the unwrapped
callback, m - n + 1 the number of source lines of the body, and
m at least n. -/
theorem getSourceLink_command_line_range (sep : Char) (repo cwd : String)
    (c : Command) (lines : List String) (n : Nat) (url loc : String) (fl : Option Nat)
    (hsrc : (c.callback.unwrap).getsourcelines = some (lines, n))
    (hne : lines ≠ [])
    (hok : get_source_link sep repo cwd (.command c) = .ok (url, loc, fl)) :
    url = repo ++ "/blob/main/" ++ loc ++
        ("#L" ++ toString n ++ "-L" ++ toString (n + lines.length - 1)) ∧
    (n + lines.length - 1) - n + 1 = lines.length ∧
    n ≤ n + lines.length - 1 := by
  obtain ⟨fn, lines2, n2, parts, hfn, hln, hrel, hloc, hfl, hurl⟩ :=
    get_source_link_ok_inv sep repo cwd (.command c) url loc fl hok
  have hl : source_lines_of (.command c) = some (lines, n) := hsrc
  have heq : some (lines, n) = some (lines2, n2) := hl.symm.trans hln
  simp only [Option.some.injEq, Prod.mk.injEq] at heq
  obtain ⟨hl2, hn2⟩ := heq
  subst hl2
  subst hn2
  have hlen : 0 < lines.length := List.length_pos.mpr hne
  exact ⟨hurl, by omega, by omega⟩

/-- Witness for C2: the static command at lines 19 to 21 with a
three-line body. -/
theorem getSourceLink_command_line_range_witness :
    (staticCommandW.callback.unwrap).getsourcelines = some (["a", "b", "c"], 19) ∧
    (["a", "b", "c"] : List String) ≠ [] ∧
    get_source_link '/' "R" "/app" (.command staticCommandW) =
      .ok ("R/blob/main/bot/exts/source.py#L19-L21", "bot/exts/source.py", some 19) ∧
    (("R/blob/main/bot/exts/source.py#L19-L21" : String) =
        "R" ++ "/blob/main/" ++ "bot/exts/source.py" ++
          ("#L" ++ toString (19 : Nat) ++ "-L" ++
            toString ((19 : Nat) + (["a", "b", "c"] : List String).length - 1)) ∧
      ((19 : Nat) + (["a", "b", "c"] : List String).length - 1) - 19 + 1 =
        (["a", "b", "c"] : List String).length ∧
      (19 : Nat) ≤ 19 + (["a", "b", "c"] : List String).length - 1) :=
  ⟨rfl, by decide, by decide,
    getSourceLink_command_line_range '/' "R" "/app" staticCommandW
      ["a", "b", "c"] 19 "R/blob/main/bot/exts/source.py#L19-L21"
      "bot/exts/source.py" (some 19) rfl (by decide) (by decide)⟩

/-- C3: whenever build_embed succeeds on a cog, the embed title is
exactly the Cog: prefix followed by the qualified name, and the
description is only the first line of the full cog description. -/
theorem buildEmbed_cog_title_first_line (sep : Char) (repo cwd : String)
    (g : Cog) (e : Embed)
    (hok : build_embed sep repo cwd (.cog g) = .ok e) :
    ∃ d rest, splitlines g.description = d :: rest ∧
      e.title = some ("Cog: " ++ g.qualified_name) ∧
      e.description = some d := by
  rcases hgs : get_source_link sep repo cwd (.cog g) with err | ⟨url, loc, fl⟩
  · simp [build_embed, hgs] at hok
  · rcases hsp : splitlines g.description with _ | ⟨d, rest⟩
    · simp [build_embed, hgs, hsp] at hok
    · simp only [build_embed, hgs, hsp] at hok
      injection hok with h
      subst h
      exact ⟨d, rest, rfl, rfl, rfl⟩

/-- Witness for C3: the two-line cog description is truncated to its
first line. -/
theorem buildEmbed_cog_title_first_line_witness :
    build_embed '/' "R" "/app" (.cog staticCogW) = .ok embedCogW ∧
    ∃ d rest, splitlines staticCogW.description = d :: rest ∧
      embedCogW.title = some ("Cog: " ++ staticCogW.qualified_name) ∧
      embedCogW.description = some d :=
  ⟨by decide,
    buildEmbed_cog_title_first_line '/' "R" "/app" staticCogW embedCogW (by decide)⟩

/-- C6: every successful get_source_link url is the repository base url,
then /blob/main/, then the defining file path made relative to the
working directory and joined with forward slashes whatever the host
separator is, then the #Lfirst-Llast range of the known source lines. -/
theorem getSourceLink_url_format (sep : Char) (repo cwd : String) (item : SourceItem)
    (url loc : String) (fl : Option Nat)
    (hok : get_source_link sep repo cwd item = .ok (url, loc, fl)) :
    ∃ fn parts lines n,
      source_filename item = some fn ∧
      relative_to sep fn cwd = some parts ∧
      loc = as_posix parts ∧
      source_lines_of item = some (lines, n) ∧
      url = repo ++ "/blob/main/" ++ loc ++
        ("#L" ++ toString n ++ "-L" ++ toString (n + lines.length - 1)) := by
  obtain ⟨fn, lines, n, parts, hfn, hln, hrel, hloc, hfl, hurl⟩ :=
    get_source_link_ok_inv sep repo cwd item url loc fl hok
  exact ⟨fn, parts, lines, n, hfn, hrel, hloc, hln, hurl⟩

/-- Witness for C6: the static command resolves to the expected
forward-slash url on a slash host. -/
theorem getSourceLink_url_format_witness :
    get_source_link '/' "R" "/app" (.command staticCommandW) =
      .ok ("R/blob/main/bot/exts/source.py#L19-L21", "bot/exts/source.py", some 19) ∧
    ∃ fn parts lines n,
      source_filename (.command staticCommandW) = some fn ∧
      relative_to '/' fn "/app" = some parts ∧
      ("bot/exts/source.py" : String) = as_posix parts ∧
      source_lines_of (.command staticCommandW) = some (lines, n) ∧
      ("R/blob/main/bot/exts/source.py#L19-L21" : String) =
        "R" ++ "/blob/main/" ++ "bot/exts/source.py" ++
          ("#L" ++ toString n ++ "-L" ++ toString (n + lines.length - 1)) :=
  ⟨by decide,
    getSourceLink_url_format '/' "R" "/app" (.command staticCommandW)
      "R/blob/main/bot/exts/source.py#L19-L21" "bot/exts/source.py" (some 19)
      (by decide)⟩

/-- C7: whenever build_embed succeeds, the footer is the file location
followed by the line suffix, and the suffix is empty exactly when no
first line number is known. -/
theorem buildEmbed_footer_format (sep : Char) (repo cwd : String) (item : SourceItem)
    (url loc : String) (fl : Option Nat) (e : Embed)
    (hgs : get_source_link sep repo cwd item = .ok (url, loc, fl))
    (hok : build_embed sep repo cwd item = .ok e) :
    e.footer = some (loc ++ line_suffix fl) ∧ (line_suffix fl = "" ↔ fl = none) := by
  obtain ⟨fn, lines, n, parts, hfn, hln, hrel, hloc, hfl, hurl⟩ :=
    get_source_link_ok_inv sep repo cwd item url loc fl hgs
  have hfl0 : fl ≠ some 0 := by
    rw [hfl]
    cases n with
    | zero => simp [orNone]
    | succ m => simp [orNone]
  refine ⟨?_, line_suffix_empty_iff fl⟩
  cases item with
  | command c =>
    simp only [build_embed, hgs] at hok
    injection hok with h
    subst h
    simp only [Embed.set_footer]
    cases fl with
    | none => rfl
    | some m =>
      have hm : ¬(m = 0) := fun hq => hfl0 (by rw [hq])
      simp [line_suffix, hm]
  | cog g =>
    rcases hsp : splitlines g.description with _ | ⟨d, rest⟩
    · simp [build_embed, hgs, hsp] at hok
    · simp only [build_embed, hgs, hsp] at hok
      injection hok with h
      subst h
      simp only [Embed.set_footer]
      cases fl with
      | none => rfl
      | some m =>
        have hm : ¬(m = 0) := fun hq => hfl0 (by rw [hq])
        simp [line_suffix, hm]

/-- Witness for C7: the static cog footer is the file location, a colon
and the first line. -/
theorem buildEmbed_footer_format_witness :
    get_source_link '/' "R" "/app" (.cog staticCogW) =
      .ok ("R/blob/main/bot/exts/source.py#L13-L14", "bot/exts/source.py", some 13) ∧
    build_embed '/' "R" "/app" (.cog staticCogW) = .ok embedCogW ∧
    (embedCogW.footer = some ("bot/exts/source.py" ++ line_suffix (some 13)) ∧
      (line_suffix (some 13) = "" ↔ (some 13 : Option Nat) = none)) :=
  ⟨by decide, by decide,
    buildEmbed_footer_format '/' "R" "/app" (.cog staticCogW)
      "R/blob/main/bot/exts/source.py#L13-L14" "bot/exts/source.py" (some 13)
      embedCogW (by decide) (by decide)⟩

end SirRobin
